import Mathlib

/-!
Verification of the imsg-rpc session layer (tui/src/rpc.rs, tui/src/main.rs,
gui/src/main.rs) against its natural-language specification.

The embedding is shallow: serde_json values become the inductive `Json`
(numbers are modelled as integers; no claim here depends on float payloads),
the reader thread's per-line classification and loop become `classify` and
`readerThread`, the process-global `AtomicU64` request-identifier counter
becomes a natural number threaded through `World` (wrapping at 2^64 as
`fetch_add` does), and the tui coordinator's mutable `App` plus the client's
outbound queue become explicit state records transformed by pure functions.
Wall-clock instants are natural numbers passed in as `now`; transport
connection attempts are passed in as an `Except` outcome.  Desktop
notification display, terminal drawing and the filesystem are external
effects with no coordinator state, and are not modelled.
-/

namespace ImsgRpc

/-- serde_json::Value as consumed by the client. Objects are association
lists looked up by first match; serde maps cannot hold duplicate keys, and
no embedded operation depends on field order. -/
inductive Json where
  | null
  | bool (b : Bool)
  | num (n : Int)
  | str (s : String)
  | arr (elems : List Json)
  | obj (fields : List (String × Json))

/-- Value::get on an object (None on every other variant, as for the
object-keyed lookups the client performs). -/
def jGet (v : Json) (key : String) : Option Json :=
  match v with
  | .obj fields => fields.lookup key
  | _ => none

/-- Value::as_str. -/
def asStr : Json → Option String
  | .str s => some s
  | _ => none

/-- Value::as_i64 — integer payloads within the i64 range. -/
def asI64 : Json → Option Int
  | .num n => if -(2 ^ 63) ≤ n ∧ n < 2 ^ 63 then some n else none
  | _ => none

/-- Value::as_bool. -/
def asBool : Json → Option Bool
  | .bool b => some b
  | _ => none

/-- Value::as_array. -/
def asArr : Json → Option (List Json)
  | .arr elems => some elems
  | _ => none

/-- Value::get chained with as_str, the common access pattern. -/
def jGetStr (v : Json) (key : String) : Option String :=
  (jGet v key).bind asStr

/-- One hexadecimal digit, lowercase, for JSON control-character escapes. -/
def hexDigit (n : Nat) : Char :=
  if n < 10 then Char.ofNat (48 + n) else Char.ofNat (87 + n)

/-- serde_json string escaping for one character (compact Display form). -/
def escapeChar (c : Char) : String :=
  if c = '"' then "\\\""
  else if c = '\\' then "\\\\"
  else if c = '\n' then "\\n"
  else if c = '\r' then "\\r"
  else if c = '\t' then "\\t"
  else if c = '\x08' then "\\b"
  else if c = '\x0c' then "\\f"
  else if c.toNat < 32 then
    String.mk ['\\', 'u', '0', '0', hexDigit (c.toNat / 16), hexDigit (c.toNat % 16)]
  else String.singleton c

/-- serde_json rendering of a string literal with quotes. -/
def renderString (s : String) : String :=
  "\"" ++ String.join (s.data.map escapeChar) ++ "\""

mutual

/-- Compact serde_json Display of a value, as produced by
`format!("‹...› \x7berror\x7d")` and `Value::to_string()` in the client. -/
def render : Json → String
  | .null => "null"
  | .bool b => if b then "true" else "false"
  | .num n => toString n
  | .str s => renderString s
  | .arr elems => "[" ++ renderArr elems ++ "]"
  | .obj fields => "\x7b" ++ renderObj fields ++ "\x7d"

/-- Comma-separated rendering of array elements. -/
def renderArr : List Json → String
  | [] => ""
  | [v] => render v
  | v :: rest => render v ++ "," ++ renderArr rest

/-- Comma-separated rendering of object fields. -/
def renderObj : List (String × Json) → String
  | [] => ""
  | [(k, v)] => renderString k ++ ":" ++ render v
  | (k, v) :: rest => renderString k ++ ":" ++ render v ++ "," ++ renderObj rest

end

/-- RpcEvent (rpc.rs lines 10-15). -/
inductive RpcEvent where
  | Response (id : String) (result : Json)
  | Error (id : Option String) (error : Json)
  | Notification (method : String) (params : Json)
  | Closed (message : String)

/-- The id-keyed half of the reader's classifier (rpc.rs lines 118-133):
a string `id` with a `result` is a Response, a string `id` with an `error`
is a tied Error; anything else yields no event. -/
def classifyById (value : Json) : Option RpcEvent :=
  match jGetStr value "id" with
  | some id =>
    match jGet value "result" with
    | some result => some (.Response id result)
    | none =>
      match jGet value "error" with
      | some err => some (.Error (some id) err)
      | none => none
  | none => none

/-- Per-line classification in reader_thread (rpc.rs lines 107-141): a string
`method` together with a present `params` is checked first and yields a
Notification; only otherwise are the id-keyed shapes tried.  `none` means the
loop sends no event for this line and simply continues. -/
def classify (value : Json) : Option RpcEvent :=
  match jGetStr value "method", jGet value "params" with
  | some method, some params => some (.Notification method params)
  | _, _ => classifyById value

/-- One input line as the reader sees it: blank (skipped before parsing),
a line on which serde_json::from_str fails (with its rendered error), or a
successfully parsed value.  Lines lost to I/O read errors, which
lines().flatten() drops before the loop body ever sees them, are simply
absent from the list. -/
inductive InLine where
  | blank
  | junk (err : String)
  | json (v : Json)

/-- reader_thread (rpc.rs lines 101-146) as the event list it sends for a
given sequence of input lines: blank lines are skipped, a parse failure
emits Closed with the parse error and breaks the loop, a classified value
emits its event, an unclassified value emits nothing, and falling off the
end of the input (end of stream) emits the final generic Closed. -/
def readerThread : List InLine → List RpcEvent
  | [] => [.Closed "rpc stream closed"]
  | .blank :: rest => readerThread rest
  | .junk err :: _ => [.Closed ("json parse error: " ++ err), .Closed "rpc stream closed"]
  | .json v :: rest =>
    match classify v with
    | some event => event :: readerThread rest
    | none => readerThread rest

/-! ### Decimal rendering of the request-identifier counter

`next_id` (rpc.rs lines 148-152) renders a u64 as its decimal string.  The
digit expansion is written with explicit fuel so that it reduces in the
kernel; `decDigits_eq` recovers the defining recursion. -/

/-- Big-endian decimal digits of `n`, with fuel. -/
def decDigitsAux : Nat → Nat → List Nat
  | 0, _ => []
  | fuel + 1, n => if n < 10 then [n] else decDigitsAux fuel (n / 10) ++ [n % 10]

/-- Big-endian decimal digits of `n` (`[0]` for zero). -/
def decDigits (n : Nat) : List Nat := decDigitsAux (n + 1) n

/-- The ASCII character of a decimal digit. -/
def digitChar (d : Nat) : Char := Char.ofNat (48 + d)

/-- u64::to_string — the decimal rendering used for request identifiers. -/
def u64ToString (n : Nat) : String := String.mk ((decDigits n).map digitChar)

/-- The value a big-endian decimal digit list denotes. -/
def ofDecDigits (ds : List Nat) : Nat := ds.foldl (fun a d => 10 * a + d) 0

/-! ### The request-identifier stream

`next_id` reads a process-global AtomicU64 with `fetch_add(1)`, which wraps
on overflow, and renders the old value in decimal.  `counterAfter k` is the
counter content after `k` calls starting from a fresh process; `nthId k` is
the identifier the `k`-th call (0-indexed) returns. -/

/-- Counter content after `k` calls of next_id (initial value 0; fetch_add
stores old + 1 wrapped to 64 bits). -/
def counterAfter : Nat → Nat
  | 0 => 0
  | k + 1 => (counterAfter k + 1) % 2 ^ 64

/-- The identifier returned by the `k`-th call of next_id. -/
def nthId (k : Nat) : String := u64ToString (counterAfter k)

/-! ### Data model of the tui coordinator (tui/src/main.rs)

HashMaps are modelled as association lists with unique keys: insertion
replaces any previous binding, removal drops it; nothing embedded here
iterates a map, so list order never matters. -/

/-- Insert-or-replace for the HashMap model. -/
def mapInsert {α : Type} (k : String) (v : α) (m : List (String × α)) :
    List (String × α) :=
  (k, v) :: m.filter (fun p => p.1 ≠ k)

/-- Key removal for the HashMap model. -/
def eraseKey {α : Type} (k : String) (m : List (String × α)) : List (String × α) :=
  m.filter (fun p => p.1 ≠ k)

/-- HashMap::contains_key. -/
def containsKey {α : Type} (k : String) (m : List (String × α)) : Bool :=
  (m.lookup k).isSome

/-- Chat (tui main.rs lines 68-75). -/
structure Chat where
  id : Int
  name : String
  identifier : String
  last_message_at : String
  service : String

/-- Reaction (tui main.rs lines 89-95). -/
structure Reaction where
  emoji : String
  sender : String
  is_from_me : Bool

/-- Message (tui main.rs lines 77-87). -/
structure Message where
  chat_id : Int
  guid : String
  reply_to_guid : Option String
  sender : String
  text : String
  created_at : String
  is_from_me : Bool
  reactions : List Reaction

/-- PendingRequest (tui main.rs lines 97-107). -/
inductive PendingRequest where
  | Chats
  | History
  | WatchSubscribe
  | WatchUnsubscribe
  | Send
  | ResolveContacts
  | ContactSearch
  | Reaction
deriving DecidableEq

/-- InputMode (tui main.rs lines 109-114). -/
inductive InputMode where
  | Normal
  | Compose
  | Reaction
deriving DecidableEq

/-- ComposeField (tui main.rs lines 116-120). -/
inductive ComposeField where
  | To
  | Body
deriving DecidableEq

/-- The tui App state (tui main.rs lines 128-156), restricted to the fields
the session layer reads or writes.  Purely presentational fields (focus,
scratch input buffers, recipient history, help overlay, last_tick) are
untouched by every embedded operation and omitted.  `reconnect_at` holds the
scheduled Instant as a natural number of seconds. -/
structure App where
  chats : List Chat
  messages : List Message
  selected : Nat
  status : String
  watch_subscription : Option String
  watch_chat_id : Option Int
  pending : List (String × PendingRequest)
  contacts : List (String × String)
  input_mode : InputMode
  contact_query : Option String
  notify : Bool
  message_offset : Nat
  message_index : Nat
  reconnect_at : Option Nat
  reconnect_attempts : Nat
  compose_to : String
  compose_field : ComposeField
  contact_suggestions : List (String × String)

/-- One request handed to the writer loop, in the structured form
send_request builds before serialization (the constant jsonrpc tag is not
recorded). -/
structure SentRequest where
  id : String
  method : String
  params : Option Json

/-- The RpcClient as the coordinator observes it: the FIFO of requests
enqueued to the writer loop.  A reconnect replaces it with a fresh one. -/
structure Client where
  sent : List SentRequest

/-- The tui process state: the global next_id counter (always < 2^64), the
live client, and the App. -/
structure World where
  counter : Nat
  client : Client
  app : App

/-- App::new (tui main.rs lines 158-189), fields the embedding keeps. -/
def initApp (notify : Bool) : App where
  chats := []
  messages := []
  selected := 0
  status := "ready"
  watch_subscription := none
  watch_chat_id := none
  pending := []
  contacts := []
  input_mode := .Normal
  contact_query := none
  notify := notify
  message_offset := 0
  message_index := 0
  reconnect_at := none
  reconnect_attempts := 0
  compose_to := ""
  compose_field := .To
  contact_suggestions := []

/-- RpcClient::send_request (rpc.rs lines 57-72): allocate a fresh id from
the global counter, enqueue the request for the writer loop, return the id
synchronously. -/
def send_request (w : World) (method : String) (params : Option Json) :
    String × World :=
  let id := u64ToString w.counter
  (id, { w with
          counter := (w.counter + 1) % 2 ^ 64,
          client := ⟨w.client.sent ++ [⟨id, method, params⟩]⟩ })

/-- request_chats (tui main.rs lines 712-716). -/
def request_chats (w : World) : World :=
  let r := send_request w "chats.list" (some (.obj [("limit", .num 50)]))
  { r.2 with app := { r.2.app with
      pending := mapInsert r.1 .Chats r.2.app.pending,
      status := "loading chats..." } }

/-- request_contact_resolve (tui main.rs lines 736-742). -/
def request_contact_resolve (w : World) (handles : List String) : World :=
  let r := send_request w "contacts.resolve"
    (some (.obj [("handles", .arr (handles.map .str))]))
  { r.2 with app := { r.2.app with
      pending := mapInsert r.1 .ResolveContacts r.2.app.pending } }

/-- request_watch_subscribe (tui main.rs lines 774-781). -/
def request_watch_subscribe (w : World) (chat_id : Int) : World :=
  let r := send_request w "watch.subscribe"
    (some (.obj [("chat_id", .num chat_id)]))
  { r.2 with app := { r.2.app with
      pending := mapInsert r.1 .WatchSubscribe r.2.app.pending,
      status := "subscribing..." } }

/-- parse_chat (tui main.rs lines 1025-1045). -/
def parse_chat (value : Json) : Option Chat :=
  match (jGet value "id").bind asI64 with
  | none => none
  | some id => some
    { id := id
      name := (jGetStr value "name").getD ""
      identifier := (jGetStr value "identifier").getD ""
      last_message_at := (jGetStr value "last_message_at").getD ""
      service := (jGetStr value "service").getD "" }

/-- The per-entry body of the reactions parse inside parse_message. -/
def parseReaction (entry : Json) : Option Reaction :=
  let emoji := (jGetStr entry "emoji").getD ""
  if emoji = "" then none
  else some
    { emoji := emoji
      sender := (jGetStr entry "sender").getD ""
      is_from_me := ((jGet entry "is_from_me").bind asBool).getD false }

/-- parse_message (tui main.rs lines 1047-1095). -/
def parse_message (value : Json) : Option Message :=
  match (jGet value "chat_id").bind asI64 with
  | none => none
  | some chat_id => some
    { chat_id := chat_id
      guid := (jGetStr value "guid").getD ""
      reply_to_guid := jGetStr value "reply_to_guid"
      sender := (jGetStr value "sender").getD ""
      text := (jGetStr value "text").getD ""
      created_at := (jGetStr value "created_at").getD ""
      is_from_me := ((jGet value "is_from_me").bind asBool).getD false
      reactions := (((jGet value "reactions").bind asArr).map
        (fun items => items.filterMap parseReaction)).getD [] }

/-- parse_notification_message (tui main.rs lines 1097-1100). -/
def parse_notification_message (params : Json) : Option Message :=
  (jGet params "message").bind parse_message

/-- str::trim_matches with the quote character, applied to a rendered
subscription token (tui main.rs line 962). -/
def trimQuotes (s : String) : String :=
  String.mk (((s.data.dropWhile (· = '"')).reverse.dropWhile (· = '"')).reverse)

/-- u32::saturating_add. -/
def satAdd32 (a b : Nat) : Nat := min (a + b) (2 ^ 32 - 1)

/-- u64::saturating_mul. -/
def satMul64 (a b : Nat) : Nat := min (a * b) (2 ^ 64 - 1)

/-- u64::saturating_pow. -/
def satPow64 (b e : Nat) : Nat := min (b ^ e) (2 ^ 64 - 1)

/-- reconnect_delay (tui main.rs lines 883-887), in whole seconds; the
saturating_sub of 0 is the source's no-op. -/
def reconnect_delay (attempt : Nat) : Nat :=
  let exp := min attempt 4 - 0
  let seconds := satMul64 2 (satPow64 2 exp)
  min seconds 30

/-- schedule_reconnect (tui main.rs lines 889-896): a no-op while an attempt
is already scheduled; otherwise schedule at now + backoff and bump the
attempt counter.  `now` stands for Instant::now(). -/
def schedule_reconnect (now : Nat) (app : App) : App :=
  match app.reconnect_at with
  | some _ => app
  | none =>
    let delay := reconnect_delay app.reconnect_attempts
    { app with
        reconnect_attempts := satAdd32 app.reconnect_attempts 1,
        reconnect_at := some (now + delay) }

/-- handle_rpc_error (tui main.rs lines 854-881): intent-specific status for
contact calls (the contact-search arm also restores the compose field from
the stashed query), generic status with the backend's code and message
otherwise. -/
def handle_rpc_error (app : App) (pending : PendingRequest) (error : Json) : App :=
  let code := ((jGet error "code").bind asI64).getD 0
  let message := (jGetStr error "message").getD "rpc error"
  match pending with
  | .ResolveContacts => { app with status := "contacts unavailable; names disabled" }
  | .ContactSearch =>
    let app1 := { app with
      status := "contact search unavailable; enter handle",
      contact_suggestions := [] }
    match app1.contact_query with
    | some query =>
      { app1 with
          contact_query := none,
          compose_to := query,
          input_mode := .Compose,
          compose_field := .To }
    | none => app1
  | _ =>
    if code = 0 then { app with status := "rpc error: " ++ message }
    else { app with status := "rpc error (" ++ toString code ++ "): " ++ message }

/-- The accumulator step of the contact-search result loop (tui main.rs
lines 995-1012): one matched entry contributes its string handles and their
labelled suggestions. -/
def contactSearchStep (acc : List String × List (String × String)) (entry : Json) :
    List String × List (String × String) :=
  let name := (jGetStr entry "name").getD ""
  match (jGet entry "handles").bind asArr with
  | some list =>
    list.foldl (fun acc h =>
      match asStr h with
      | some value =>
        let label := if name = "" then value else name ++ " <" ++ value ++ ">"
        (acc.1 ++ [value], acc.2 ++ [(label, value)])
      | none => acc) acc
  | none => acc

/-- handle_response (tui main.rs lines 924-1023): route a Response's result
by the pending intent that produced the call. -/
def handle_response (w : World) (pending : PendingRequest) (result : Json) : World :=
  match pending with
  | .Chats =>
    let chats := (((jGet result "chats").bind asArr).map
      (fun list => list.filterMap parse_chat)).getD []
    let selected := if w.app.selected ≥ chats.length then 0 else w.app.selected
    { w with app := { w.app with
        chats := chats, selected := selected, status := "chats loaded" } }
  | .History =>
    let messages := (((jGet result "messages").bind asArr).map
      (fun list => list.filterMap parse_message)).getD []
    let handles := ((messages.map (fun m => m.sender)).filter
      (fun h => h != "")).filter (fun h => !containsKey h w.app.contacts)
    let w1 := { w with app := { w.app with
        messages := messages,
        message_index := 0,
        message_offset := 0,
        status := "history loaded",
        contact_suggestions := [] } }
    if handles = [] then w1 else request_contact_resolve w1 handles
  | .WatchSubscribe =>
    match jGet result "subscription" with
    | some sub =>
      { w with app := { w.app with
          watch_subscription := some (trimQuotes (render sub)),
          status := "watch subscribed" } }
    | none => w
  | .WatchUnsubscribe =>
    { w with app := { w.app with
        watch_subscription := none,
        watch_chat_id := none,
        status := "watch unsubscribed" } }
  | .Send => { w with app := { w.app with status := "sent" } }
  | .ResolveContacts =>
    let entries := ((jGet result "contacts").bind asArr).getD []
    let contacts := entries.foldl (fun acc entry =>
      match jGetStr entry "handle", jGetStr entry "name" with
      | some handle, some name => mapInsert handle name acc
      | _, _ => acc) w.app.contacts
    { w with app := { w.app with contacts := contacts } }
  | .ContactSearch =>
    let entries := ((jGet result "matches").bind asArr).getD []
    let pairs := entries.foldl contactSearchStep ([], [])
    let app1 := { w.app with contact_suggestions := pairs.2 }
    let app2 :=
      if pairs.1 = [] then { app1 with status := "no contact matches; enter handle" }
      else app1
    { w with app := { app2 with contact_query := none } }
  | .Reaction => { w with app := { w.app with status := "reaction sent" } }

/-- One iteration of the handle_rpc_events drain loop (tui main.rs lines
801-852).  A Response or tied Error consumes its pending entry when one
exists (HashMap::remove leaves the map unchanged when the id is absent); an
Error without a matching entry, tied or untied, only updates the status.  A
"message" Notification appends to the open conversation when it belongs to
it, triggers contact resolution for an unseen sender, and sets the status
(the desktop alert it may also raise is an external effect).  Closed stamps
the status and schedules a reconnect; `now` stands for Instant::now(). -/
def handleEvent (now : Nat) (w : World) (event : RpcEvent) : World :=
  match event with
  | .Response id result =>
    match w.app.pending.lookup id with
    | some pending =>
      handle_response
        ({ w with app := { w.app with pending := eraseKey id w.app.pending } })
        pending result
    | none => w
  | .Error id error =>
    match id with
    | some request_id =>
      match w.app.pending.lookup request_id with
      | some pending =>
        let app1 := { w.app with pending := eraseKey request_id w.app.pending }
        { w with app := handle_rpc_error app1 pending error }
      | none =>
        { w with app := { w.app with status := "rpc error: " ++ render error } }
    | none =>
      { w with app := { w.app with status := "rpc error: " ++ render error } }
  | .Notification method params =>
    if method = "message" then
      match parse_notification_message params with
      | some message =>
        let should_append :=
          ((w.app.chats.get? w.app.selected).map
            (fun chat => chat.id == message.chat_id)).getD false
        let app1 :=
          if should_append then { w.app with messages := w.app.messages ++ [message] }
          else w.app
        let w1 := { w with app := app1 }
        let w2 :=
          if containsKey message.sender app1.contacts then w1
          else request_contact_resolve w1 [message.sender]
        { w2 with app := { w2.app with status := "new message" } }
      | none => w
    else w
  | .Closed message =>
    { w with app :=
        schedule_reconnect now ({ w.app with status := "rpc closed: " ++ message }) }

/-- The full drain loop of handle_rpc_events: fold the handler over the
events buffered in arrival order. -/
def handle_rpc_events (now : Nat) (w : World) (events : List RpcEvent) : World :=
  events.foldl (handleEvent now) w

/-- handle_reconnect (tui main.rs lines 898-922).  `now` stands for
Instant::now() and `connect` for the outcome of config.connect() at this
tick: on success the client is replaced by a fresh one, stale session state
is cleared, and the bootstrap calls (chats.list, then watch.subscribe when a
watch target was active) are re-dispatched; on failure the next attempt is
scheduled. -/
def handle_reconnect (now : Nat) (connect : Except String Unit) (w : World) : World :=
  match w.app.reconnect_at with
  | none => w
  | some t =>
    if now < t then w
    else
      match connect with
      | .ok _ =>
        let w1 := { w with
          client := ⟨[]⟩,
          app := { w.app with
            reconnect_at := none,
            reconnect_attempts := 0,
            watch_subscription := none,
            pending := [],
            status := "reconnected" } }
        let w2 := request_chats w1
        match w2.app.watch_chat_id with
        | some chat_id => request_watch_subscribe w2 chat_id
        | none => w2
      | .error err =>
        let app1 := { w.app with
          status := "reconnect failed: " ++ err,
          reconnect_at := none }
        { w with app := schedule_reconnect now app1 }

namespace Gui

/-! ### The gui shell (gui/src/main.rs)

The gui App owns an `Option<RpcClient>`: it is None exactly when the shell
is disconnected (the initial transport connection failed, no reconnect has
succeeded yet).  Every dispatcher is guarded by `if let Some(client)`.
Only the fields those dispatchers read or write are modelled; the gui's
process-global identifier counter is carried alongside the client. -/

/-- PendingRequest (gui main.rs lines 96-107). -/
inductive PendingRequest where
  | Chats
  | History
  | WatchSubscribe
  | WatchUnsubscribe
  | Send
  | ResolveContacts
  | ContactSearch
  | Reaction
  | AttachmentFetch
deriving DecidableEq

/-- The gui App state (gui main.rs lines 133-160) restricted to the fields
its RPC dispatchers touch. -/
structure App where
  counter : Nat
  client : Option Client
  pending : List (String × PendingRequest)
  status : String
  watch_subscription : Option String
  watch_chat_id : Option Int

/-- The common dispatch step behind every guarded gui dispatcher: allocate
an id via the shared RpcClient::send_request, enqueue the request, record
the pending intent. -/
def dispatch (app : App) (c : Client) (method : String) (params : Option Json)
    (intent : PendingRequest) : String × App :=
  let id := u64ToString app.counter
  (id, { app with
          counter := (app.counter + 1) % 2 ^ 64,
          client := some ⟨c.sent ++ [⟨id, method, params⟩]⟩,
          pending := mapInsert id intent app.pending })

/-- request_chats (gui main.rs lines 214-220). -/
def request_chats (app : App) : App :=
  match app.client with
  | none => app
  | some c =>
    let r := dispatch app c "chats.list" (some (.obj [("limit", .num 50)])) .Chats
    { r.2 with status := "loading chats..." }

/-- request_history (gui main.rs lines 222-231). -/
def request_history (app : App) (chat_id : Int) : App :=
  match app.client with
  | none => app
  | some c =>
    let r := dispatch app c "messages.history"
      (some (.obj [("chat_id", .num chat_id), ("limit", .num 50)])) .History
    { r.2 with status := "loading history for chat " ++ toString chat_id }

/-- toggle_watch (gui main.rs lines 233-253). -/
def toggle_watch (app : App) (chat_id : Int) : App :=
  match app.client with
  | none => app
  | some c =>
    match app.watch_subscription with
    | some sub =>
      let r := dispatch app c "watch.unsubscribe"
        (some (.obj [("subscription", .str sub)])) .WatchUnsubscribe
      { r.2 with status := "unsubscribing...", watch_chat_id := none }
    | none =>
      let app1 := { app with watch_chat_id := some chat_id }
      let r := dispatch app1 c "watch.subscribe"
        (some (.obj [("chat_id", .num chat_id)])) .WatchSubscribe
      { r.2 with status := "subscribing..." }

/-- request_send_chat (gui main.rs lines 255-264). -/
def request_send_chat (app : App) (chat_id : Int) (text : String) : App :=
  match app.client with
  | none => app
  | some c =>
    let r := dispatch app c "send"
      (some (.obj [("chat_id", .num chat_id), ("text", .str text)])) .Send
    { r.2 with status := "sending..." }

/-- request_send_to (gui main.rs lines 266-275); `toHandle` is the source's
`to` parameter, renamed because `to` is reserved in Lean. -/
def request_send_to (app : App) (toHandle : String) (text : String) : App :=
  match app.client with
  | none => app
  | some c =>
    let r := dispatch app c "send"
      (some (.obj [("to", .str toHandle), ("text", .str text)])) .Send
    { r.2 with status := "sending..." }

/-- request_watch_subscribe (gui main.rs lines 277-286). -/
def request_watch_subscribe (app : App) (chat_id : Int) : App :=
  match app.client with
  | none => app
  | some c =>
    let r := dispatch app c "watch.subscribe"
      (some (.obj [("chat_id", .num chat_id)])) .WatchSubscribe
    { r.2 with status := "subscribing..." }

/-- request_reaction (gui main.rs lines 288-297). -/
def request_reaction (app : App) (guid : String) (reaction : String) : App :=
  match app.client with
  | none => app
  | some c =>
    let r := dispatch app c "reactions.send"
      (some (.obj [("guid", .str guid), ("reaction", .str reaction)])) .Reaction
    { r.2 with status := "sending reaction..." }

/-- request_contact_search (gui main.rs lines 299-307). -/
def request_contact_search (app : App) (query : String) : App :=
  match app.client with
  | none => app
  | some c =>
    let r := dispatch app c "contacts.search"
      (some (.obj [("query", .str query), ("limit", .num 10)])) .ContactSearch
    r.2

/-- request_contact_resolve (gui main.rs lines 309-317). -/
def request_contact_resolve (app : App) (handles : List String) : App :=
  match app.client with
  | none => app
  | some c =>
    let r := dispatch app c "contacts.resolve"
      (some (.obj [("handles", .arr (handles.map .str))])) .ResolveContacts
    r.2

/-- reconnect_delay (gui main.rs lines 1181-1185), in whole seconds. -/
def reconnect_delay (attempt : Nat) : Nat :=
  let seconds := satMul64 2 (satPow64 2 (min attempt 4))
  min seconds 30

end Gui

/-! ### Concrete fixtures used by witnesses and counterexamples -/

/-- A frame simultaneously shaped like a Response (id + result) and a
Notification (method + params). -/
def bothFrame : Json :=
  .obj [("id", .str "1"), ("result", .num 1), ("method", .str "m"), ("params", .num 2)]

/-- A frame that parses but matches none of the four inbound shapes. -/
def unmatchedFrame : Json := .obj [("foo", .num 1)]

/-- A well-formed Response frame. -/
def respFrame : Json := .obj [("id", .str "1"), ("result", .num 7)]

/-- An untied error frame: an error object and no id. -/
def untiedErrorFrame : Json :=
  .obj [("error", .obj [("code", .num (-32000)), ("message", .str "backend gone")])]

/-- A fresh tui world: counter 0, empty outbound queue, pristine App. -/
def w0 : World := ⟨0, ⟨[]⟩, initApp true⟩

/-- A tui world with three in-flight requests and an active watch on chat 7. -/
def wC5 : World :=
  ⟨10, ⟨[]⟩,
    { initApp true with
        pending := [("1", .History), ("2", .WatchSubscribe), ("3", .Send)],
        watch_subscription := some "s",
        watch_chat_id := some 7 }⟩

/-- A chat record with id 3. -/
def chat3 : Chat := ⟨3, "", "+1555", "", "iMessage"⟩

/-- A tui world whose selected conversation is chat 3. -/
def wC8 : World := ⟨0, ⟨[]⟩, { initApp true with chats := [chat3] }⟩

/-- A "message" notification params payload for chat 5 from an unseen sender. -/
def paramsChat5 : Json :=
  .obj [("message", .obj [("chat_id", .num 5), ("sender", .str "+1777")])]

/-- The message paramsChat5 parses to. -/
def msgChat5 : Message := ⟨5, "", none, "+1777", "", "", false, []⟩

/-- A disconnected gui App (its initial transport connection failed). -/
def gApp0 : Gui.App := ⟨0, none, [], "rpc error: connect failed", none, none⟩

/-- A tui world with a reconnect already scheduled for instant 5 after one
attempt. -/
def wC10 : World :=
  ⟨0, ⟨[]⟩, { initApp true with reconnect_at := some 5, reconnect_attempts := 1 }⟩

/-! ### Helper lemmas: decimal rendering is injective -/

theorem decDigitsAux_congr : ∀ f₁ f₂ n, n < f₁ → n < f₂ →
    decDigitsAux f₁ n = decDigitsAux f₂ n := by
  intro f₁
  induction f₁ with
  | zero => intro f₂ n h; omega
  | succ f ih =>
    intro f₂ n h₁ h₂
    match f₂, h₂ with
    | g + 1, h₂ =>
      show (if n < 10 then [n] else decDigitsAux f (n / 10) ++ [n % 10]) =
        (if n < 10 then [n] else decDigitsAux g (n / 10) ++ [n % 10])
      by_cases hn : n < 10
      · simp [hn]
      · have hd : n / 10 < n := Nat.div_lt_self (by omega) (by omega)
        simp only [if_neg hn]
        rw [ih g (n / 10) (by omega) (by omega)]

theorem decDigits_eq (n : Nat) :
    decDigits n = if n < 10 then [n] else decDigits (n / 10) ++ [n % 10] := by
  show decDigitsAux (n + 1) n = _
  by_cases hn : n < 10
  · simp [decDigitsAux, hn]
  · have hd : n / 10 < n := Nat.div_lt_self (by omega) (by omega)
    show (if n < 10 then [n] else decDigitsAux n (n / 10) ++ [n % 10]) = _
    rw [if_neg hn, if_neg hn,
      decDigitsAux_congr n (n / 10 + 1) (n / 10) (by omega) (by omega)]
    rfl

theorem ofDecDigits_append (ds : List Nat) (d : Nat) :
    ofDecDigits (ds ++ [d]) = 10 * ofDecDigits ds + d := by
  unfold ofDecDigits
  rw [List.foldl_append]
  rfl

theorem ofDecDigits_decDigits (n : Nat) : ofDecDigits (decDigits n) = n := by
  induction n using Nat.strong_induction_on with
  | _ n ih =>
    rw [decDigits_eq]
    by_cases hn : n < 10
    · simp [hn, ofDecDigits]
    · have hd : n / 10 < n := Nat.div_lt_self (by omega) (by omega)
      rw [if_neg hn, ofDecDigits_append, ih (n / 10) hd]
      omega

theorem decDigits_injective {a b : Nat} (h : decDigits a = decDigits b) : a = b := by
  have := congrArg ofDecDigits h
  rwa [ofDecDigits_decDigits, ofDecDigits_decDigits] at this

theorem decDigits_lt_ten (n : Nat) : ∀ d ∈ decDigits n, d < 10 := by
  induction n using Nat.strong_induction_on with
  | _ n ih =>
    rw [decDigits_eq]
    by_cases hn : n < 10
    · simp [hn]
    · have hd : n / 10 < n := Nat.div_lt_self (by omega) (by omega)
      rw [if_neg hn]
      intro d hmem
      rcases List.mem_append.mp hmem with h | h
      · exact ih (n / 10) hd d h
      · simp at h
        omega

theorem digitChar_inj : ∀ d₁ < 10, ∀ d₂ < 10, digitChar d₁ = digitChar d₂ → d₁ = d₂ := by
  decide

theorem map_digitChar_inj : ∀ l₁ l₂ : List Nat, (∀ d ∈ l₁, d < 10) → (∀ d ∈ l₂, d < 10) →
    l₁.map digitChar = l₂.map digitChar → l₁ = l₂ := by
  intro l₁
  induction l₁ with
  | nil => intro l₂ _ _ h; cases l₂ <;> simp_all
  | cons a t ih =>
    intro l₂ h₁ h₂ h
    cases l₂ with
    | nil => simp at h
    | cons b t₂ =>
      simp only [List.map_cons, List.cons.injEq] at h
      have ha : a = b :=
        digitChar_inj a (h₁ a (by simp)) b (h₂ b (by simp)) h.1
      have ht : t = t₂ :=
        ih t₂ (fun d hd => h₁ d (by simp [hd])) (fun d hd => h₂ d (by simp [hd])) h.2
      rw [ha, ht]

theorem u64ToString_inj {a b : Nat} (h : u64ToString a = u64ToString b) : a = b := by
  unfold u64ToString at h
  have hdata : (decDigits a).map digitChar = (decDigits b).map digitChar :=
    congrArg String.data h
  exact decDigits_injective
    (map_digitChar_inj _ _ (decDigits_lt_ten a) (decDigits_lt_ten b) hdata)

theorem counterAfter_eq (k : Nat) : counterAfter k = k % 2 ^ 64 := by
  induction k with
  | zero => rfl
  | succ k ih =>
    show (counterAfter k + 1) % 2 ^ 64 = (k + 1) % 2 ^ 64
    rw [ih]
    omega

/-- Two identifiers allocated back to back are distinct strings. -/
theorem fresh_id_ne (c : Nat) (_hc : c < 2 ^ 64) :
    u64ToString c ≠ u64ToString ((c + 1) % 2 ^ 64) := by
  intro h
  have he := u64ToString_inj h
  rcases Nat.lt_or_ge (c + 1) (2 ^ 64) with hlt | hge
  · rw [Nat.mod_eq_of_lt hlt] at he
    omega
  · have hx : c + 1 = 2 ^ 64 := by omega
    rw [hx, Nat.mod_self] at he
    omega

/-! ### Claims -/

/-- Claim C1, corrected.  A parsed inbound frame that carries both a
`method`+`params` pair and an `id`+`result` pair is classified as a
Notification, not a Response: the reader checks `method`+`params` first, so
Notification — not Response — takes precedence by check order. -/
theorem c1_notification_precedence (v : Json) (m : String) (p : Json)
    (hm : jGetStr v "method" = some m) (hp : jGet v "params" = some p) :
    classify v = some (.Notification m p) := by
  unfold classify
  rw [hm, hp]

/-- Claim C1 counterexample: on a concrete frame with both shapes the
classifier emits a Notification and no Response at all. -/
theorem c1_counterexample :
    classify bothFrame = some (.Notification "m" (.num 2)) ∧
    ∀ id result, classify bothFrame ≠ some (.Response id result) := by
  refine ⟨rfl, ?_⟩
  intro id result h
  rw [show classify bothFrame = some (.Notification "m" (.num 2)) from rfl] at h
  exact absurd h (by simp)

/-- Claim C1 witness: the corrected precedence at the concrete frame. -/
theorem c1_witness :
    jGetStr bothFrame "method" = some "m" ∧
    jGet bothFrame "params" = some (.num 2) ∧
    classify bothFrame = some (.Notification "m" (.num 2)) :=
  ⟨rfl, rfl, c1_notification_precedence bothFrame "m" (.num 2) rfl rfl⟩

/-- Claim C2, corrected.  A line that fails to parse makes the reader emit
Closed with the parse error and stop (the end-of-loop Closed follows); a
line that parses but matches none of the inbound shapes produces no event
at all — the loop silently continues — and a line that classifies emits
exactly its event. -/
theorem c2_classification (err : String) (rest : List InLine) (v : Json) :
    readerThread (.junk err :: rest) =
      [.Closed ("json parse error: " ++ err), .Closed "rpc stream closed"] ∧
    (classify v = none → readerThread (.json v :: rest) = readerThread rest) ∧
    (∀ e, classify v = some e →
      readerThread (.json v :: rest) = e :: readerThread rest) := by
  refine ⟨rfl, ?_, ?_⟩
  · intro h
    simp [readerThread, h]
  · intro e h
    simp [readerThread, h]

/-- Claim C2 counterexample: a parseable frame matching no shape yields no
Closed event — the reader skips it and keeps classifying later lines. -/
theorem c2_counterexample :
    classify unmatchedFrame = none ∧
    readerThread [.json unmatchedFrame, .json respFrame] =
      [.Response "1" (.num 7), .Closed "rpc stream closed"] :=
  ⟨rfl, rfl⟩

/-- Claim C2 witness: the amended per-line behavior at concrete lines. -/
theorem c2_witness :
    readerThread [.junk "bad"] =
      [.Closed "json parse error: bad", .Closed "rpc stream closed"] ∧
    readerThread [.json unmatchedFrame] = readerThread [] ∧
    readerThread [.json respFrame] = .Response "1" (.num 7) :: readerThread [] :=
  ⟨(c2_classification "bad" [] unmatchedFrame).1,
   (c2_classification "bad" [] unmatchedFrame).2.1 rfl,
   (c2_classification "bad" [] respFrame).2.2 (.Response "1" (.num 7)) rfl⟩

/-- Claim C3, code bug.  An untied error frame (an `error` member, no `id`)
is silently swallowed by the reader: the `error` check is nested inside the
string-`id` branch, so the frame produces no event and only the end-of-
stream Closed ever reaches the coordinator.  The third conjunct shows the
coordinator branch the claim describes — surfacing an id-less Error as a
status — exists but is unreachable, matching the claim (and the RpcEvent
type, whose Error id is optional) rather than the reader. -/
theorem c3_untied_error_swallowed :
    classify untiedErrorFrame = none ∧
    readerThread [.json untiedErrorFrame] = [.Closed "rpc stream closed"] ∧
    (handleEvent 0 w0 (.Error none (.str "boom"))).app.status =
      "rpc error: \"boom\"" :=
  ⟨rfl, rfl, rfl⟩

/-- Claim C4, corrected.  A Response whose id has no pending entry is
discarded with zero effect on the whole world; a tied Error whose id has no
pending entry leaves the pending map (and everything else) unchanged but
does set the status string — not zero observable effect. -/
theorem c4_unknown_id_effects (now : Nat) (w : World) (id : String)
    (result error : Json) (h : w.app.pending.lookup id = none) :
    handleEvent now w (.Response id result) = w ∧
    handleEvent now w (.Error (some id) error) =
      { w with app := { w.app with status := "rpc error: " ++ render error } } := by
  constructor
  · simp [handleEvent, h]
  · simp [handleEvent, h]

/-- Claim C4 counterexample: an unknown-id tied Error changes the status
string, so processing it is not free of observable effect. -/
theorem c4_counterexample :
    (handleEvent 0 w0 (.Error (some "7") (.num 5))).app.status = "rpc error: 5" ∧
    w0.app.status = "ready" ∧
    handleEvent 0 w0 (.Error (some "7") (.num 5)) ≠ w0 := by
  refine ⟨rfl, rfl, ?_⟩
  intro h
  have hs : (handleEvent 0 w0 (.Error (some "7") (.num 5))).app.status =
      w0.app.status := by rw [h]
  rw [show (handleEvent 0 w0 (.Error (some "7") (.num 5))).app.status =
      "rpc error: 5" from rfl] at hs
  rw [show w0.app.status = "ready" from rfl] at hs
  exact absurd hs (by decide)

/-- Claim C4 witness: the amended effects at a concrete world with an empty
pending map. -/
theorem c4_witness :
    w0.app.pending.lookup "7" = none ∧
    handleEvent 0 w0 (.Response "7" (.num 5)) = w0 ∧
    handleEvent 0 w0 (.Error (some "7") (.num 5)) =
      { w0 with app := { w0.app with status := "rpc error: 5" } } :=
  ⟨rfl, (c4_unknown_id_effects 0 w0 "7" (.num 5) (.num 5) rfl).1,
   (c4_unknown_id_effects 0 w0 "7" (.num 5) (.num 5) rfl).2⟩

/-- Claim C5, corrected.  After a Closed event and a subsequent successful
reconnect, every stale pending entry is gone, the attempt counter is 0, no
further reconnect is scheduled, and a fresh watch.subscribe for the
previously watched target has been dispatched on the new connection — but
the pending map is not empty: it holds exactly the two fresh bootstrap
entries (chats.list, then the new watch.subscribe), since the re-issued
calls register their own pending intents. -/
theorem c5_reconnect_fresh_state (w : World) (chat_id : Int) (msg : String)
    (n0 n1 : Nat) (hcnt : w.counter < 2 ^ 64)
    (hra : w.app.reconnect_at = none)
    (hwc : w.app.watch_chat_id = some chat_id)
    (hn : n0 + reconnect_delay w.app.reconnect_attempts ≤ n1) :
    (handle_reconnect n1 (.ok ()) (handleEvent n0 w (.Closed msg))).app.pending =
      [(u64ToString ((w.counter + 1) % 2 ^ 64), .WatchSubscribe),
       (u64ToString w.counter, .Chats)] ∧
    (handle_reconnect n1 (.ok ())
      (handleEvent n0 w (.Closed msg))).app.reconnect_attempts = 0 ∧
    (handle_reconnect n1 (.ok ())
      (handleEvent n0 w (.Closed msg))).app.reconnect_at = none ∧
    (handle_reconnect n1 (.ok ()) (handleEvent n0 w (.Closed msg))).client.sent =
      [⟨u64ToString w.counter, "chats.list", some (.obj [("limit", .num 50)])⟩,
       ⟨u64ToString ((w.counter + 1) % 2 ^ 64), "watch.subscribe",
        some (.obj [("chat_id", .num chat_id)])⟩] := by
  have hne : u64ToString w.counter ≠
      u64ToString ((w.counter + 1) % 18446744073709551616) :=
    fresh_id_ne w.counter hcnt
  have hnotlt : ¬ n1 < n0 + reconnect_delay w.app.reconnect_attempts :=
    Nat.not_lt.mpr hn
  refine ⟨?_, ?_, ?_, ?_⟩ <;>
    simp [handleEvent, schedule_reconnect, handle_reconnect, hra, hwc, hnotlt,
      request_chats, request_watch_subscribe, send_request, mapInsert, eraseKey,
      List.filter, hne]

/-- Claim C5 counterexample: from a world with three in-flight requests and
an active watch, the pending map after the reconnect is not empty (it holds
the fresh bootstrap entries). -/
theorem c5_counterexample :
    (handle_reconnect 5 (.ok ()) (handleEvent 0 wC5 (.Closed "eof"))).app.pending ≠
      [] := by
  decide

/-- Claim C5 witness: the amended post-reconnect state at the concrete
three-pending world. -/
theorem c5_witness :
    wC5.counter < 2 ^ 64 ∧ wC5.app.reconnect_at = none ∧
    wC5.app.watch_chat_id = some 7 ∧
    (handle_reconnect 5 (.ok ()) (handleEvent 0 wC5 (.Closed "eof"))).app.pending =
      [("11", .WatchSubscribe), ("10", .Chats)] ∧
    (handle_reconnect 5 (.ok ())
      (handleEvent 0 wC5 (.Closed "eof"))).app.reconnect_attempts = 0 :=
  ⟨by decide, rfl, rfl,
   (c5_reconnect_fresh_state wC5 7 "eof" 0 5 (by decide) rfl rfl (by decide)).1,
   (c5_reconnect_fresh_state wC5 7 "eof" 0 5 (by decide) rfl rfl (by decide)).2.1⟩

/-- Claim C6, confirmed.  Both shells compute the backoff delay for attempt
n as min(2 * 2^min(n,4), 30) seconds, and delay(0..=10) is exactly
[2, 4, 8, 16, 30, 30, 30, 30, 30, 30, 30]. -/
theorem c6_backoff_formula (n : Nat) :
    reconnect_delay n = min (2 * 2 ^ min n 4) 30 ∧
    Gui.reconnect_delay n = min (2 * 2 ^ min n 4) 30 ∧
    (List.range 11).map reconnect_delay =
      [2, 4, 8, 16, 30, 30, 30, 30, 30, 30, 30] ∧
    (List.range 11).map Gui.reconnect_delay =
      [2, 4, 8, 16, 30, 30, 30, 30, 30, 30, 30] := by
  obtain ⟨m, hm, hle⟩ : ∃ m, min n 4 = m ∧ m ≤ 4 :=
    ⟨min n 4, rfl, Nat.min_le_right n 4⟩
  refine ⟨?_, ?_, rfl, rfl⟩
  · simp only [reconnect_delay, satMul64, satPow64]
    rw [hm]
    interval_cases m <;> decide
  · simp only [Gui.reconnect_delay, satMul64, satPow64]
    rw [hm]
    interval_cases m <;> decide

/-- Claim C7, corrected.  The identifier generator is a wrapping 64-bit
counter rendered in decimal, so identifiers are pairwise distinct for any
two calls among the first 2^64 of the process (reconnects do not reset the
counter); after 2^64 calls the counter wraps and identifiers repeat. -/
theorem c7_id_uniqueness (i j : Nat) (hij : i < j) (hj : j < 2 ^ 64) :
    nthId i ≠ nthId j := by
  unfold nthId
  rw [counterAfter_eq, counterAfter_eq, Nat.mod_eq_of_lt (by omega),
    Nat.mod_eq_of_lt hj]
  intro h
  exact absurd (u64ToString_inj h) (by omega)

/-- Claim C7 counterexample: call number 2^64 returns the same identifier
string as call number 0, so identifiers are not distinct for every N. -/
theorem c7_counterexample : nthId (2 ^ 64) = nthId 0 ∧ (2 ^ 64 : Nat) ≠ 0 := by
  constructor
  · unfold nthId
    rw [counterAfter_eq, counterAfter_eq, Nat.mod_self, Nat.zero_mod]
  · omega

/-- Claim C7 witness: two early calls return distinct identifiers. -/
theorem c7_witness : 0 < 1 ∧ 1 < 2 ^ 64 ∧ nthId 0 ≠ nthId 1 :=
  ⟨by decide, by norm_num, c7_id_uniqueness 0 1 (by decide) (by norm_num)⟩

/-- Claim C8, confirmed.  A "message" notification for a conversation other
than the selected one is not appended to the visible history, yet a
contacts.resolve request for the unseen sender is still dispatched (and its
pending intent registered); the status still flips to "new message". -/
theorem c8_membership_filter (now : Nat) (w : World) (params : Json)
    (message : Message) (chat : Chat)
    (hp : parse_notification_message params = some message)
    (hchat : w.app.chats.get? w.app.selected = some chat)
    (hne : chat.id ≠ message.chat_id)
    (hunknown : w.app.contacts.lookup message.sender = none) :
    (handleEvent now w (.Notification "message" params)).app.messages =
      w.app.messages ∧
    (handleEvent now w (.Notification "message" params)).client.sent =
      w.client.sent ++
        [⟨u64ToString w.counter, "contacts.resolve",
          some (.obj [("handles", .arr [.str message.sender])])⟩] ∧
    (handleEvent now w (.Notification "message" params)).app.pending =
      mapInsert (u64ToString w.counter) .ResolveContacts w.app.pending ∧
    (handleEvent now w (.Notification "message" params)).app.status =
      "new message" := by
  have happ : (chat.id == message.chat_id) = false := by
    exact beq_eq_false_iff_ne.mpr hne
  have hchat2 : w.app.chats[w.app.selected]? = some chat := by
    simpa using hchat
  have hsa : (Option.map (fun chat => chat.id == message.chat_id)
      w.app.chats[w.app.selected]?).getD false = false := by
    rw [hchat2]
    simp [happ]
  have hck : containsKey message.sender w.app.contacts = false := by
    simp [containsKey, hunknown]
  refine ⟨?_, ?_, ?_, ?_⟩ <;>
    simp [handleEvent, hp, hsa, hck, request_contact_resolve,
      send_request, mapInsert, eraseKey]

/-- Claim C8 witness: a notification for chat 5 while chat 3 is selected is
not appended but still triggers contact resolution for its sender. -/
theorem c8_witness :
    parse_notification_message paramsChat5 = some msgChat5 ∧
    wC8.app.chats.get? wC8.app.selected = some chat3 ∧
    chat3.id ≠ msgChat5.chat_id ∧
    (handleEvent 0 wC8 (.Notification "message" paramsChat5)).app.messages = [] ∧
    (handleEvent 0 wC8 (.Notification "message" paramsChat5)).client.sent =
      [⟨"0", "contacts.resolve", some (.obj [("handles", .arr [.str "+1777"])])⟩] := by
  have h := c8_membership_filter 0 wC8 paramsChat5 msgChat5 chat3 rfl rfl
    (by decide) rfl
  exact ⟨rfl, rfl, by decide, h.1, h.2.1⟩

/-- Claim C9, confirmed.  In the gui shell — the only shell with a
disconnected state, client = None — every RPC dispatcher is a complete
no-op while disconnected: no pending entry is created, nothing is enqueued,
no field of the App changes, and the request is silently dropped. -/
theorem c9_disconnected_noop (app : Gui.App) (h : app.client = none)
    (chat_id : Int) (text guid reaction query toHandle : String)
    (handles : List String) :
    Gui.request_chats app = app ∧
    Gui.request_history app chat_id = app ∧
    Gui.toggle_watch app chat_id = app ∧
    Gui.request_send_chat app chat_id text = app ∧
    Gui.request_send_to app toHandle text = app ∧
    Gui.request_watch_subscribe app chat_id = app ∧
    Gui.request_reaction app guid reaction = app ∧
    Gui.request_contact_search app query = app ∧
    Gui.request_contact_resolve app handles = app := by
  refine ⟨?_, ?_, ?_, ?_, ?_, ?_, ?_, ?_, ?_⟩ <;>
    simp [Gui.request_chats, Gui.request_history, Gui.toggle_watch,
      Gui.request_send_chat, Gui.request_send_to, Gui.request_watch_subscribe,
      Gui.request_reaction, Gui.request_contact_search,
      Gui.request_contact_resolve, h]

/-- Claim C9 witness: the disconnected gui App is left untouched by a
sample of every dispatcher. -/
theorem c9_witness :
    gApp0.client = none ∧
    Gui.request_chats gApp0 = gApp0 ∧
    Gui.toggle_watch gApp0 7 = gApp0 ∧
    Gui.request_send_to gApp0 "+1555" "hi" = gApp0 ∧
    Gui.request_contact_resolve gApp0 ["+1555"] = gApp0 := by
  have h := c9_disconnected_noop gApp0 rfl 7 "hi" "g" "like" "q" "+1555" ["+1555"]
  exact ⟨rfl, h.1, h.2.2.1, h.2.2.2.2.1, h.2.2.2.2.2.2.2.2⟩

/-- Claim C10, confirmed.  While a reconnect is already scheduled, a further
Closed event changes only the status string — neither the scheduled instant
nor the attempt counter moves — and the reader's two consecutive Closed
events after a parse error therefore schedule exactly one reconnect attempt
(one counter increment, the instant fixed by the first event). -/
theorem c10_schedule_idempotent (now : Nat) (w1 w2 : World) (t : Nat)
    (msg perr : String) (rest : List InLine)
    (h1 : w1.app.reconnect_at = some t)
    (h2 : w2.app.reconnect_at = none) :
    handleEvent now w1 (.Closed msg) =
      { w1 with app := { w1.app with status := "rpc closed: " ++ msg } } ∧
    (handle_rpc_events now w2
      (readerThread (.junk perr :: rest))).app.reconnect_at =
      some (now + reconnect_delay w2.app.reconnect_attempts) ∧
    (handle_rpc_events now w2
      (readerThread (.junk perr :: rest))).app.reconnect_attempts =
      satAdd32 w2.app.reconnect_attempts 1 := by
  refine ⟨?_, ?_, ?_⟩
  · simp [handleEvent, schedule_reconnect, h1]
  · simp [handle_rpc_events, readerThread, handleEvent, schedule_reconnect, h2]
  · simp [handle_rpc_events, readerThread, handleEvent, schedule_reconnect, h2]

/-- Claim C10 witness: a second Closed on a world with a scheduled reconnect
only restamps the status, and the reader's post-parse-error double Closed
yields one scheduling on a fresh world. -/
theorem c10_witness :
    wC10.app.reconnect_at = some 5 ∧
    w0.app.reconnect_at = none ∧
    handleEvent 0 wC10 (.Closed "gone") =
      { wC10 with app := { wC10.app with status := "rpc closed: gone" } } ∧
    (handle_rpc_events 0 w0 (readerThread [.junk "bad"])).app.reconnect_at =
      some 2 ∧
    (handle_rpc_events 0 w0 (readerThread [.junk "bad"])).app.reconnect_attempts =
      1 := by
  have h := c10_schedule_idempotent 0 wC10 w0 5 "gone" "bad" [] rfl rfl
  exact ⟨rfl, rfl, h.1, h.2.1, h.2.2⟩

end ImsgRpc
